import Mathlib

/-!
Shallow embedding of the container runtime of this repository
(`src/routerlicious/packages/loader/src/runtime.ts`) together with the
component-context behaviours exercised by
`src/packages/runtime/container-runtime/src/test/componentContext.spec.ts`.

State is modelled explicitly: the mutable `Runtime` object becomes a
structure that public operations transform, JavaScript `Map`s become
insertion-ordered association lists (JS `Map.set` keeps the position of an
existing key and appends new keys), thrown exceptions become `Except`
errors, and externally supplied collaborators (the chaincode factory that
creates channel objects, a channel's own `snapshot()` implementation) are
passed in as explicit arguments, since the spec treats them as opaque
external interfaces.
-/

namespace Fluid

/-- Errors surfaced by the runtime: the `"Runtime is closed"` error thrown
by `verifyNotClosed`, a failed `assert(...)` from the `assert` module, a
JavaScript `TypeError` from dereferencing `undefined`/`null`, the
double-`setBaseMapping` logic error of the delta connection (spec §4.1),
the malformed-package-path error and the unresolved-type error of the
component registry walk (spec §4.2, §7). -/
inductive RError where
  | closedContainer
  | assertionFailed
  | typeError
  | baseMappingAlreadySet
  | malformedPackagePath
  | unresolvedType
deriving DecidableEq, Repr

/-- Model of `ConnectionState` from `@prague/runtime-definitions`. -/
inductive ConnState where
  | Disconnected
  | Connecting
  | Connected
deriving DecidableEq, Repr

/-- Model of `MessageType` values the runtime submits. -/
inductive MsgType where
  | Operation
  | Attach
  | Save
  | BlobUploaded
  | RemoteHelp
deriving DecidableEq, Repr

/-- A snapshot tree entry (`ITreeEntry`): either a blob
(`mode: FileMode.File`, `type: "Blob"`, value `{contents, encoding}`) or a
nested tree (`mode: FileMode.Directory`, `type: "Tree"`, value a list of
entries). The `mode` string is carried explicitly. -/
inductive SnapEntry where
  | blob (mode path contents encoding : String)
  | tree (mode path : String) (entries : List SnapEntry)

/-- The `path` field of a tree entry. -/
def SnapEntry.pathOf : SnapEntry → String
  | .blob _ p _ _ => p
  | .tree _ p _ => p

/-- Modelled from the spec: `ChannelDeltaConnection`
(`channelDeltaConnection.ts` is not under `src/`; its contract is spec
§4.1). It holds the base document-sequence mapping (`none` until
`setBaseMapping` establishes it) and the channel's minimum sequence
number, plus the propagated connection state. A fresh connection starts
with no base mapping and minimum sequence number 0. -/
structure ChannelDeltaConnection where
  id : String
  connState : ConnState
  baseSequenceNumber : Option Nat
  minimumSequenceNumber : Nat
deriving DecidableEq, Repr

namespace ChannelDeltaConnection

/-- Model of `baseMappingIsSet()`: whether `setBaseMapping` has been called. -/
def baseMappingIsSet (c : ChannelDeltaConnection) : Bool :=
  c.baseSequenceNumber.isSome

/-- Modelled from the spec (§4.1): `setBaseMapping(sequenceNumber,
minimumSequenceNumber)` establishes the document-to-local mapping and
fails (logic error) if called twice. -/
def setBaseMapping (c : ChannelDeltaConnection) (sequenceNumber minimumSequenceNumber : Nat) :
    Except RError ChannelDeltaConnection :=
  if c.baseMappingIsSet then
    .error .baseMappingAlreadySet
  else
    .ok { c with
      baseSequenceNumber := some sequenceNumber
      minimumSequenceNumber := minimumSequenceNumber }

/-- Modelled from the spec (§4.1): `updateMinimumSequenceNumber(msn)`
advances the low-water mark (never moves it backwards, so a value ≤ the
current minimum has no effect). -/
def updateMinSequenceNumber (c : ChannelDeltaConnection) (msn : Nat) : ChannelDeltaConnection :=
  { c with minimumSequenceNumber := max c.minimumSequenceNumber msn }

/-- Modelled from the spec (§4.1): `setConnectionState(state)` propagates
a connectivity transition to the channel. -/
def setConnState (c : ChannelDeltaConnection) (s : ConnState) : ChannelDeltaConnection :=
  { c with connState := s }

/-- Modelled from the spec (§4.1): `transformDocumentSequenceNumber`
translates a document sequence number into the channel's local space by
subtracting the base mapping point, floored at zero (`Nat` subtraction
floors). Before the mapping is set the number passes through unchanged. -/
def transformDocumentSequenceNumber (c : ChannelDeltaConnection) (sn : Nat) : Nat :=
  match c.baseSequenceNumber with
  | some base => sn - base
  | none => sn

end ChannelDeltaConnection

/-- Model of `IChannel` as the runtime observes it: `id`, `type`, the `isLocal()`
predicate and the `dirty` flag. The channel's internal data structure and
its `snapshot()` implementation are external collaborators (spec §1) and
are passed to the runtime operations that invoke them. -/
structure IChannel where
  id : String
  type : String
  isLocal : Bool
  dirty : Bool
deriving DecidableEq, Repr

/-- Which storage service backs a channel (`ChannelStorageService` from a
snapshot tree, or `LocalChannelStorageService` wrapping attach data). -/
inductive ObjectStorage where
  | channelStorage
  | localStorage
deriving DecidableEq, Repr

/-- Model of `IChannelState`: the per-channel record held in the runtime's channel
map.  `connection` and `storage` are `null` for a freshly created local
channel. -/
structure IChannelState where
  object : IChannel
  storage : Option ObjectStorage
  connection : Option ChannelDeltaConnection
deriving DecidableEq, Repr

/-- Model of `IAttachMessage`: `{id, type, snapshot}` where `snapshot` is the
channel's full snapshot at attach time. -/
structure IAttachMessage where
  id : String
  type : String
  snapshot : List SnapEntry

/-- Model of `IObjectAttributes`: the persisted `.attributes` blob content
`{sequenceNumber, type}`. -/
structure IObjectAttributes where
  sequenceNumber : Nat
  type : String
deriving DecidableEq, Repr

/-- The fields of an `ISequencedDocumentMessage` the embedded operations
read, with `contents` specialised to the attach payload for the
attach-processing path (the only path modelled that reads `contents`). -/
structure SeqMessage where
  sequenceNumber : Nat
  minimumSequenceNumber : Nat
  referenceSequenceNumber : Nat
  attachContents : IAttachMessage

section AssocList

variable {α : Type}

/-- JS `Map.has`. -/
def hasKey : List (String × α) → String → Bool
  | [], _ => false
  | p :: t, k => p.1 == k || hasKey t k

/-- JS `Map.get` (`none` for `undefined`): the value of the first —
in a `Map`, only — pair with the key. -/
def lookupKey : List (String × α) → String → Option α
  | [], _ => none
  | p :: t, k => if p.1 == k then some p.2 else lookupKey t k

/-- JS `Map.set`: replaces the value in place when the key exists,
appends otherwise (JS `Map` iteration is in insertion order). -/
def mapSet (m : List (String × α)) (k : String) (v : α) : List (String × α) :=
  if hasKey m k then
    m.map (fun p => if p.1 == k then (k, v) else p)
  else
    m ++ [(k, v)]

/-- JS `Map.delete`: removes the pair with the key. -/
def eraseKey : List (String × α) → String → List (String × α)
  | [], _ => []
  | p :: t, k => if p.1 == k then eraseKey t k else p :: eraseKey t k

end AssocList

/-- The `Runtime` state: the channel map, the pending-attach map, the
per-id deferred map (a `Bool` records whether the deferred has been
resolved), the closed flag, the connection state, the client id and the
registered task list. -/
structure Runtime where
  channels : List (String × IChannelState)
  channelsDeferred : List (String × Bool)
  closed : Bool
  pendingAttach : List (String × IAttachMessage)
  connState : ConnState
  clientId : String
  tasks : List String

/-- Observable side effects of a runtime operation: a submitted attach
message (via `submitFn`) and the `"connected"` event emission. -/
inductive REvent where
  | submitAttach (m : IAttachMessage)
  | emitConnected (clientId : String)

namespace Runtime

/-- Model of `verifyNotClosed()`: throws `"Runtime is closed"` once `closed` is
set. -/
def verifyNotClosed (r : Runtime) : Except RError Unit :=
  if r.closed then .error .closedContainer else .ok ()

/-- Model of `getChannel(id)`: after the closed check, registers a deferred for the
id when none exists and returns its promise (modelled as the updated
deferred map). -/
def getChannel (r : Runtime) (id : String) : Except RError Runtime :=
  if r.closed then .error .closedContainer
  else if hasKey r.channelsDeferred id then .ok r
  else .ok { r with channelsDeferred := mapSet r.channelsDeferred id false }

/-- Model of `createChannel(id, type)`: the chaincode factory call
`this.chaincode.getModule(type).create(this, id)` is external; its result
is the `channel` argument. The new state is registered with `null`
connection and storage, and the id's deferred is resolved (created
resolved when absent). -/
def createChannel (r : Runtime) (id : String) (channel : IChannel) :
    Except RError (Runtime × IChannel) :=
  if r.closed then .error .closedContainer
  else
    let channels := mapSet r.channels id
      { object := channel, storage := none, connection := none }
    let channelsDeferred := mapSet r.channelsDeferred id true
    .ok ({ r with channels := channels, channelsDeferred := channelsDeferred }, channel)

/-- Model of `attachChannel(channel)`: records the attach message built from the
channel's externally computed snapshot (`channelSnapshot` stands for the
external `channel.snapshot()` call), submits it, and installs a fresh
delta connection plus storage service on the channel's existing map
entry. `assert.equal(entry.object, channel)` fails when the map entry was
not created for this channel object; `entry.connection`/`entry.storage`
on a missing entry is a `TypeError`. -/
def attachChannel (r : Runtime) (channel : IChannel) (channelSnapshot : List SnapEntry) :
    Except RError (Runtime × List REvent) :=
  if r.closed then .error .closedContainer
  else
    let message : IAttachMessage :=
      { id := channel.id, type := channel.type, snapshot := channelSnapshot }
    let pendingAttach := mapSet r.pendingAttach channel.id message
    match lookupKey r.channels channel.id with
    | none => .error .typeError
    | some entry =>
      if entry.object ≠ channel then .error .assertionFailed
      else
        let conn : ChannelDeltaConnection :=
          { id := channel.id, connState := r.connState
            baseSequenceNumber := none, minimumSequenceNumber := 0 }
        let st : IChannelState :=
          { object := entry.object, storage := some .channelStorage, connection := some conn }
        .ok ({ r with
                channels := mapSet r.channels channel.id st
                pendingAttach := pendingAttach },
             [.submitAttach message])

/-- Model of `changeConnectionState(value, clientId)`: no-op when the state is
unchanged; otherwise stores the new state and client id, resubmits every
pending attach message and emits `"connected"` before propagating the
transition to every channel that has a delta connection. -/
def changeConnectionState (r : Runtime) (value : ConnState) (clientId : String) :
    Except RError (Runtime × List REvent) :=
  if r.closed then .error .closedContainer
  else if value = r.connState then .ok (r, [])
  else
    let events :=
      if value = ConnState.Connected then
        r.pendingAttach.map (fun p => REvent.submitAttach p.2) ++ [REvent.emitConnected clientId]
      else []
    let channels := r.channels.map (fun p =>
      (p.1, { p.2 with connection := p.2.connection.map (fun c => c.setConnState value) }))
    .ok ({ r with connState := value, clientId := clientId, channels := channels }, events)

/-- Model of `processAttach(message, local, context)`: for a local echo, asserts
the id is pending, removes it from the pending-attach map and establishes
the channel connection's base mapping at `(0, message.minimumSequenceNumber)`;
for a remote attach, registers the prepared channel state under its
object's id and resolves the deferred. Returns
`this.channels.get(attachMessage.id).object`. -/
def processAttach (r : Runtime) (message : SeqMessage) (localMsg : Bool)
    (context : Option IChannelState) : Except RError (Runtime × IChannel) :=
  if r.closed then .error .closedContainer
  else
    let attachMessage := message.attachContents
    if localMsg then
      if ¬ hasKey r.pendingAttach attachMessage.id then .error .assertionFailed
      else
        match lookupKey r.channels attachMessage.id with
        | none => .error .typeError
        | some st =>
          match st.connection with
          | none => .error .typeError
          | some c =>
            match c.setBaseMapping 0 message.minimumSequenceNumber with
            | .error e => .error e
            | .ok c2 =>
              let st2 : IChannelState := { st with connection := some c2 }
              .ok ({ r with
                      pendingAttach := eraseKey r.pendingAttach attachMessage.id
                      channels := mapSet r.channels attachMessage.id st2 },
                   st2.object)
    else
      match context with
      | none => .error .typeError
      | some channelState =>
        let channels := mapSet r.channels channelState.object.id channelState
        let channelsDeferred := mapSet r.channelsDeferred channelState.object.id true
        match lookupKey channels attachMessage.id with
        | none => .error .typeError
        | some st =>
          .ok ({ r with channels := channels, channelsDeferred := channelsDeferred }, st.object)

/-- Model of `hasUnackedOps()`: whether any channel object is dirty. -/
def hasUnackedOps (r : Runtime) : Except RError Bool :=
  if r.closed then .error .closedContainer
  else .ok (r.channels.any (fun p => p.2.object.dirty))

/-- Model of `save(tag)`: closed check then `submit(MessageType.Save, tag)` (the
inner `submit` re-checks the flag). -/
def save (r : Runtime) : Except RError Unit :=
  if r.closed then .error .closedContainer
  else if r.closed then .error .closedContainer
  else .ok ()

/-- Model of `submitMessage(type, content)` forwards to the private `submit`,
whose first statement is `verifyNotClosed()`. -/
def submitMessage (r : Runtime) (_type : MsgType) : Except RError Unit :=
  if r.closed then .error .closedContainer else .ok ()

/-- Model of `registerTasks(tasks, version?)`: closed check, then stores the task
list (leader-election start-up is event wiring on external collaborators). -/
def registerTasks (r : Runtime) (tasks : List String) : Except RError Runtime :=
  if r.closed then .error .closedContainer
  else .ok { r with tasks := tasks }

/-- Whether `snapshotInternal`/`updateMinSequenceNumber` act on a channel:
the code's `!object.object.isLocal() && object.connection.baseMappingIsSet()`
(the second conjunct is only evaluated for non-local channels, which
always carry a connection; a `none` connection yields `false`). -/
def snapshotted (st : IChannelState) : Bool :=
  !st.object.isLocal &&
    (match st.connection with
     | some c => c.baseMappingIsSet
     | none => false)

/-- The synthetic `.attributes` blob entry: `JSON.stringify` of the
`IObjectAttributes` `{sequenceNumber, type}`, `utf-8`, `FileMode.File`. -/
def attributesEntry (a : IObjectAttributes) : SnapEntry :=
  .blob "File" ".attributes"
    ("\x7b\"sequenceNumber\":" ++ toString a.sequenceNumber ++
      ",\"type\":\"" ++ a.type ++ "\"\x7d")
    "utf-8"

/-- Model of `snapshotInternal()`: for every non-local channel whose base mapping
is set, take the channel's own snapshot (`snapshotOf` stands for the
external `object.object.snapshot()` call, keyed by channel id), append the
`.attributes` blob containing the delta connection's minimum sequence
number and the object's type, and nest the result as a `Directory` tree
entry under the channel id. No closed check is performed. -/
def snapshotInternal (r : Runtime) (snapshotOf : String → List SnapEntry) : List SnapEntry :=
  r.channels.filterMap (fun p =>
    match p.2.connection with
    | some c =>
      if !p.2.object.isLocal && c.baseMappingIsSet then
        some (.tree "Directory" p.1
          (snapshotOf p.1 ++
            [attributesEntry
              { sequenceNumber := c.minimumSequenceNumber, type := p.2.object.type }]))
      else none
    | none => none)

/-- Model of `stop()`: closed check, set the closed flag, return
`snapshotInternal()`. -/
def stop (r : Runtime) (snapshotOf : String → List SnapEntry) :
    Except RError (Runtime × List SnapEntry) :=
  if r.closed then .error .closedContainer
  else
    let r2 := { r with closed := true }
    .ok (r2, r2.snapshotInternal snapshotOf)

/-- Model of `updateMinSequenceNumber(msn)`: forwards the new minimum sequence
number to every channel that is non-local with its base mapping set,
leaving every other channel untouched. Performs no closed check. -/
def updateMinSequenceNumber (r : Runtime) (msn : Nat) : Runtime :=
  { r with channels := r.channels.map (fun p =>
      if snapshotted p.2 then
        (p.1, { p.2 with
          connection := p.2.connection.map (fun c => c.updateMinSequenceNumber msn) })
      else p) }

/-- Model of `transform(message)`: looks the channel up by the envelope address and
rewrites the contents via the channel object's external `transform` using
`connection.transformDocumentSequenceNumber(max(referenceSequenceNumber,
deltaManager.minimumSequenceNumber))`; the translated sequence number is
the observable output modelled. A missing channel or connection is a
`TypeError`. Performs no closed check. -/
def transform (r : Runtime) (address : String) (referenceSequenceNumber dmMsn : Nat) :
    Except RError Nat :=
  match lookupKey r.channels address with
  | none => .error .typeError
  | some st =>
    match st.connection with
    | none => .error .typeError
    | some c => .ok (c.transformDocumentSequenceNumber (max referenceSequenceNumber dmMsn))

/-- Model of `prepare(message, local)`: closed check, look up the channel by the
envelope address, `assert(objectDetails)`, then delegate to the channel's
delta connection (external from here). -/
def prepare (r : Runtime) (address : String) : Except RError IChannelState :=
  if r.closed then .error .closedContainer
  else
    match lookupKey r.channels address with
    | none => .error .assertionFailed
    | some st => .ok st

/-- Model of `process(message, local, context)`: closed check, look up the channel
by the envelope address, `assert(objectDetails)`, delegate to the delta
connection and return the channel object. -/
def process (r : Runtime) (address : String) : Except RError IChannel :=
  if r.closed then .error .closedContainer
  else
    match lookupKey r.channels address with
    | none => .error .assertionFailed
    | some st => .ok st.object

/-- Model of `loadSnapshotChannel(runtime, id, tree, storage, messages, branch,
minimumSequenceNumber)`: the attributes blob read and the chaincode
`extension.load` are external calls whose results are the `attrs` and
`loadedObject` arguments. A fresh delta connection gets its base mapping
set to `(attrs.sequenceNumber, minimumSequenceNumber)`; then
`assert(!this.channels.has(id))` fails when the id is already present,
otherwise the channel state is registered and the id's deferred (reserved
by `LoadFromSnapshot`; dereferenced unconditionally) is resolved. -/
def loadSnapshotChannel (r : Runtime) (id : String) (attrs : IObjectAttributes)
    (minimumSequenceNumber : Nat) (loadedObject : IChannel) : Except RError Runtime :=
  let conn0 : ChannelDeltaConnection :=
    { id := id, connState := r.connState
      baseSequenceNumber := none, minimumSequenceNumber := 0 }
  match conn0.setBaseMapping attrs.sequenceNumber minimumSequenceNumber with
  | .error e => .error e
  | .ok conn =>
    if hasKey r.channels id then .error .assertionFailed
    else if ¬ hasKey r.channelsDeferred id then .error .typeError
    else
      let st : IChannelState :=
        { object := loadedObject, storage := some .channelStorage, connection := some conn }
      .ok { r with
        channels := mapSet r.channels id st
        channelsDeferred := mapSet r.channelsDeferred id true }

end Runtime

/-- Modelled from the spec: an entry of the (possibly nested) component
registry (`componentContext.ts`/`containerRuntime.ts` are not under
`src/`; spec §4.2 and the tests of `componentContext.spec.ts` describe
the behaviour). An entry either provides only a component factory, or is
itself a sub-registry (which may additionally act as a factory, as the
combined registry object of the second test does). -/
inductive RegistryEntry where
  | factoryOnly
  | subRegistry (alsoFactory : Bool) (entries : List (String × RegistryEntry))

/-- Whether an entry can act as a component factory
(`IComponentFactory` capability). -/
def RegistryEntry.isFactory : RegistryEntry → Bool
  | .factoryOnly => true
  | .subRegistry alsoFactory _ => alsoFactory

/-- Whether an entry is itself a sub-registry (`IComponentRegistry`
capability). -/
def RegistryEntry.isRegistry : RegistryEntry → Bool
  | .factoryOnly => false
  | .subRegistry _ _ => true

/-- Modelled from the spec: `LocalComponentContext.realize` resolving the
package path against the registry (§4.2): an empty path is a fatal
construction error; each path element is resolved one registry level at a
time (`resolve(segment)`, here `lookupKey`, failing with an
unresolved-type error when absent); a non-final element must resolve to a
sub-registry, otherwise resolution fails with the malformed-package-path
error; the final element must resolve to a factory. -/
def realize (registry : List (String × RegistryEntry)) :
    List String → Except RError Unit
  | [] => .error .malformedPackagePath
  | p :: rest =>
    match lookupKey registry p with
    | none => .error .unresolvedType
    | some e =>
      match rest with
      | [] => if e.isFactory then .ok () else .error .unresolvedType
      | _ :: _ =>
        match e with
        | .factoryOnly => .error .malformedPackagePath
        | .subRegistry _ entries => realize entries rest

/-- Modelled from the spec: the `type` declared by
`generateAttachMessage()` is the last element of the component's package
path (Scenario B / the tests assert `attachMessage.type` equals the last
path element). -/
def attachMessageType (pkgPath : List String) : Option String :=
  pkgPath.getLast?

/-- Model of `IComponentAttributes`: the persisted component attribute blob
`{pkg, snapshotFormatVersion?}` (spec §6): `pkg` is a JSON-encoded array
of identifiers, or a single bare identifier for the oldest format, which
carries no `snapshotFormatVersion`. -/
structure IComponentAttributes where
  pkg : String
  snapshotFormatVersion : Option String
deriving DecidableEq, Repr

/-- Model of `JSON.stringify` of a list of identifier strings (identifiers contain
no characters needing escapes). -/
def jsonStringList (l : List String) : String :=
  "[" ++ String.intercalate "," (l.map (fun s => "\"" ++ s ++ "\"")) ++ "]"

/-- Modelled from the spec: reading a persisted component attribute blob
(`RemotedComponentContext`; §4.3): absence of `snapshotFormatVersion` is
treated as the earliest version, whose `pkg` is a single bare identifier
that is normalized into the canonical JSON-encoded one-element array; a
versioned blob's `pkg` is already canonical. The result is the canonical
encoded package value the context stores. -/
def normalizePkg (a : IComponentAttributes) : String :=
  match a.snapshotFormatVersion with
  | none => jsonStringList [a.pkg]
  | some _ => a.pkg

/-- Modelled from the spec: the attribute blob a subsequent `snapshot()`
of the context emits — the canonical (normalized) `pkg` and the current
snapshot format version `"0.1"`. -/
def snapshotAttributes (a : IComponentAttributes) : IComponentAttributes :=
  { pkg := normalizePkg a, snapshotFormatVersion := some "0.1" }

/-- Lexicographic comparison of character lists by code point. -/
def charListLE : List Char → List Char → Bool
  | [], _ => true
  | _ :: _, [] => false
  | c :: cs, d :: ds =>
    if c.toNat < d.toNat then true
    else if d.toNat < c.toNat then false
    else charListLE cs ds

/-- Lexicographic string comparison by code point (the ordering used to
rank client ids). -/
def strLE (a b : String) : Bool := charListLE a.data b.data

/-- Modelled from the spec: `getLeaderCandidate` (`taskAnalyzer.ts` is
not under `src/`; §4.4: every client computes the same deterministic
candidate, the lowest-ordered eligible member, from the current
membership list). -/
def getLeaderCandidate : List String → Option String
  | [] => none
  | m :: rest =>
    match getLeaderCandidate rest with
    | none => some m
    | some c => some (if strLE m c then m else c)

/-- Model of `Runtime.proposeLeadership`: a client submits a leadership proposal
exactly when the computed candidate over the quorum members equals its
own client id. -/
def proposesLeadership (clientId : String) (members : List String) : Bool :=
  getLeaderCandidate members == some clientId

/-! Concrete fixtures used to instantiate the theorems below. -/

/-- A non-local channel object of type `"TypeA"`. -/
def chA : IChannel := { id := "c1", type := "TypeA", isLocal := false, dirty := false }

/-- A second channel object under the same id (different type). -/
def chB : IChannel := { id := "c1", type := "TypeB", isLocal := true, dirty := false }

/-- A delta connection whose base mapping is established at 5, minimum
sequence number 0. -/
def connMapped : ChannelDeltaConnection :=
  { id := "c1", connState := .Connected, baseSequenceNumber := some 5
    minimumSequenceNumber := 0 }

/-- A fresh delta connection, base mapping not yet established. -/
def connUnmapped : ChannelDeltaConnection :=
  { id := "c1", connState := .Connected, baseSequenceNumber := none
    minimumSequenceNumber := 0 }

/-- A delta connection mapped at 0 with minimum sequence number 7. -/
def connMsn7 : ChannelDeltaConnection :=
  { id := "c1", connState := .Connected, baseSequenceNumber := some 0
    minimumSequenceNumber := 7 }

/-- Channel state: non-local, base mapping set. -/
def stMapped : IChannelState :=
  { object := chA, storage := some .channelStorage, connection := some connMapped }

/-- Channel state: non-local, base mapping not set (attach pending). -/
def stUnmapped : IChannelState :=
  { object := chA, storage := some .channelStorage, connection := some connUnmapped }

/-- Channel state: non-local, mapped, minimum sequence number 7. -/
def stMsn7 : IChannelState :=
  { object := chA, storage := some .channelStorage, connection := some connMsn7 }

/-- The attach message for `"c1"`. -/
def attachMsg1 : IAttachMessage := { id := "c1", type := "TypeA", snapshot := [] }

/-- The connection of `"c1"` after its attach echo is processed:
base mapping 0, minimum sequence number 4. -/
def connAcked : ChannelDeltaConnection :=
  { id := "c1", connState := .Connected, baseSequenceNumber := some 0
    minimumSequenceNumber := 4 }

/-- The channel state of `"c1"` after its attach echo is processed. -/
def stAcked : IChannelState :=
  { object := chA, storage := some .channelStorage, connection := some connAcked }

/-- A sequenced attach message echo with minimum sequence number 4. -/
def seqMsg1 : SeqMessage :=
  { sequenceNumber := 10, minimumSequenceNumber := 4
    referenceSequenceNumber := 9, attachContents := attachMsg1 }

/-- A closed runtime holding one mapped non-local channel. -/
def rClosed : Runtime :=
  { channels := [("c1", stMapped)], channelsDeferred := [], closed := true
    pendingAttach := [], connState := .Connected, clientId := "A", tasks := [] }

/-- An open runtime holding one mapped non-local channel and a resolved
deferred for its id. -/
def rDup : Runtime :=
  { channels := [("c1", stMapped)], channelsDeferred := [("c1", true)], closed := false
    pendingAttach := [], connState := .Connected, clientId := "A", tasks := [] }

/-- An open runtime with channel `"c1"` attached but its attach message
still pending (connection created, base mapping not yet set). -/
def rPend : Runtime :=
  { channels := [("c1", stUnmapped)], channelsDeferred := [("c1", true)], closed := false
    pendingAttach := [("c1", attachMsg1)], connState := .Connected
    clientId := "A", tasks := [] }

/-- A disconnected runtime with one pending attach message. -/
def rDisc : Runtime :=
  { channels := [("c1", stUnmapped)], channelsDeferred := [("c1", true)], closed := false
    pendingAttach := [("c1", attachMsg1)], connState := .Disconnected
    clientId := "A", tasks := [] }

/-- An open runtime holding one snapshot-eligible channel
(non-local, mapped, minimum sequence number 7) and nothing pending. -/
def rSnap : Runtime :=
  { channels := [("c1", stMsn7)], channelsDeferred := [], closed := false
    pendingAttach := [], connState := .Connected, clientId := "A", tasks := [] }

/-- An open runtime with one unmapped and one mapped channel (under
distinct ids) for the minimum-sequence-number update theorem. -/
def rTwo : Runtime :=
  { channels := [("u1", stUnmapped), ("c1", stMapped)], channelsDeferred := []
    closed := false, pendingAttach := [], connState := .Connected
    clientId := "A", tasks := [] }

/-! Association-list lemmas shared by the claim theorems. -/

section AssocLemmas

variable {α : Type}

theorem hasKey_iff_mem (m : List (String × α)) (k : String) :
    hasKey m k = true ↔ k ∈ m.map Prod.fst := by
  induction m with
  | nil => simp [hasKey]
  | cons a t ih =>
    simp only [hasKey, Bool.or_eq_true, beq_iff_eq, List.map_cons, List.mem_cons, ih]
    constructor
    · rintro (h | h)
      · exact Or.inl h.symm
      · exact Or.inr h
    · rintro (h | h)
      · exact Or.inl h.symm
      · exact Or.inr h

theorem lookupKey_mapSet_self (m : List (String × α)) (k : String) (v : α) :
    lookupKey (mapSet m k v) k = some v := by
  unfold mapSet
  by_cases h : hasKey m k = true
  · rw [if_pos h]
    induction m with
    | nil => simp [hasKey] at h
    | cons a t ih =>
      by_cases ha : a.1 = k
      · simp [lookupKey, ha]
      · have ht : hasKey t k = true := by
          simpa [hasKey, ha] using h
        simpa [lookupKey, ha] using ih ht
  · rw [if_neg h]
    induction m with
    | nil => simp [lookupKey]
    | cons a t ih =>
      have ha : ¬ a.1 = k := by
        intro he
        exact h (by simp [hasKey, he])
      have ht : ¬ hasKey t k = true := by
        intro he
        exact h (by simp [hasKey, he])
      simpa [lookupKey, ha] using ih ht

theorem hasKey_eraseKey_self (m : List (String × α)) (k : String) :
    hasKey (eraseKey m k) k = false := by
  induction m with
  | nil => rfl
  | cons a t ih =>
    by_cases ha : a.1 = k
    · simpa [eraseKey, ha] using ih
    · simpa [eraseKey, hasKey, ha] using ih

theorem lookupKey_eraseKey_ne (m : List (String × α)) (k k' : String) (h : k' ≠ k) :
    lookupKey (eraseKey m k) k' = lookupKey m k' := by
  induction m with
  | nil => rfl
  | cons a t ih =>
    by_cases hk : a.1 = k
    · have hk' : ¬ a.1 = k' := fun he => h (hk ▸ he).symm
      simpa [eraseKey, lookupKey, hk, hk', Ne.symm h] using ih
    · by_cases hk' : a.1 = k'
      · simp [eraseKey, lookupKey, hk, hk', h]
      · simpa [eraseKey, lookupKey, hk, hk'] using ih

theorem keys_mapSet_of_hasKey (m : List (String × α)) (k : String) (v : α)
    (h : hasKey m k = true) :
    (mapSet m k v).map Prod.fst = m.map Prod.fst := by
  unfold mapSet
  rw [if_pos h, List.map_map]
  apply List.map_congr_left
  intro p _
  by_cases hp : p.1 = k
  · simp [Function.comp, hp]
  · simp [Function.comp, hp]

theorem keys_mapSet_of_not_hasKey (m : List (String × α)) (k : String) (v : α)
    (h : ¬ hasKey m k = true) :
    (mapSet m k v).map Prod.fst = m.map Prod.fst ++ [k] := by
  unfold mapSet
  rw [if_neg h, List.map_append]
  rfl

theorem nodup_keys_mapSet (m : List (String × α)) (k : String) (v : α)
    (h : (m.map Prod.fst).Nodup) :
    ((mapSet m k v).map Prod.fst).Nodup := by
  by_cases hk : hasKey m k = true
  · rw [keys_mapSet_of_hasKey m k v hk]
    exact h
  · rw [keys_mapSet_of_not_hasKey m k v hk]
    have hnm : k ∉ m.map Prod.fst := fun hm => hk ((hasKey_iff_mem m k).mpr hm)
    simp [List.nodup_append, h, hnm]

end AssocLemmas

/-- Claim C5: realizing a local channel whose package path has more than
one element fails when the registry's entry for the first element is not
itself a sub-registry, and succeeds when it is; in the success case the
generated attach message's declared type equals the last path element
(`"Sub"`). -/
theorem realize_package_path (registry : List (String × RegistryEntry))
    (p q : String) (rest : List String) (e : RegistryEntry)
    (hl : lookupKey registry p = some e) (hn : e.isRegistry = false) :
    realize registry (p :: q :: rest) = .error .malformedPackagePath
    ∧ realize [("Comp", .subRegistry true [("Sub", .factoryOnly)])] ["Comp", "Sub"] = .ok ()
    ∧ attachMessageType ["Comp", "Sub"] = some "Sub"
    ∧ realize [("Comp", .factoryOnly)] ["Comp", "Sub"] = .error .malformedPackagePath := by
  refine ⟨?_, rfl, rfl, rfl⟩
  cases e with
  | factoryOnly => simp [realize, hl]
  | subRegistry b entries => simp [RegistryEntry.isRegistry] at hn

/-- Claim C5 witness: instantiated at the registry of Scenario B whose
`"Comp"` entry is a bare factory. -/
theorem realize_package_path_witness :
    realize [("Comp", RegistryEntry.factoryOnly)] ["Comp", "Sub"] =
      .error .malformedPackagePath
    ∧ realize [("Comp", .subRegistry true [("Sub", .factoryOnly)])] ["Comp", "Sub"] = .ok ()
    ∧ attachMessageType ["Comp", "Sub"] = some "Sub" := by
  have h := realize_package_path [("Comp", RegistryEntry.factoryOnly)] "Comp" "Sub" []
    RegistryEntry.factoryOnly rfl rfl
  exact ⟨h.1, h.2.1, h.2.2.1⟩

/-- Claim C6: every client computes the same candidate as a deterministic
function of the member list (`getLeaderCandidate` is a pure function, and
a client proposes exactly when the candidate is its own id); with members
sorted `A < B < C` and leader `A` gone, only `B` proposes. -/
theorem leader_candidate_unique :
    (∀ (clientId : String) (members : List String),
      proposesLeadership clientId members = true ↔
        getLeaderCandidate members = some clientId)
    ∧ getLeaderCandidate ["B", "C"] = some "B"
    ∧ proposesLeadership "B" ["B", "C"] = true
    ∧ proposesLeadership "C" ["B", "C"] = false := by
  refine ⟨?_, ?_, ?_, ?_⟩
  · intro clientId members
    simp [proposesLeadership]
  · decide
  · decide
  · decide

/-- Claim C7: loading a persisted attribute blob whose `pkg` is a bare
identifier with no `snapshotFormatVersion` is normalized so that a
subsequent snapshot emits `pkg` equal to the JSON-encoded one-element
array and `snapshotFormatVersion` equal to `"0.1"`. -/
theorem attribute_blob_normalization :
    (∀ s : String,
      snapshotAttributes { pkg := s, snapshotFormatVersion := none } =
        { pkg := jsonStringList [s], snapshotFormatVersion := some "0.1" })
    ∧ snapshotAttributes { pkg := "Foo", snapshotFormatVersion := none } =
        { pkg := "[\"Foo\"]", snapshotFormatVersion := some "0.1" } := by
  constructor
  · intro s
    rfl
  · decide

/-- Claim C10: calling `changeConnectionState` with a value equal to the
current connection state returns the runtime unchanged with no events: no
client id update, no resubmission, no notification, no channel
propagation. -/
theorem changeConnectionState_same_noop (r : Runtime) (v : ConnState) (clientId : String)
    (hcl : r.closed = false) (hv : v = r.connState) :
    r.changeConnectionState v clientId = .ok (r, []) := by
  simp [Runtime.changeConnectionState, hcl, hv]

/-- Claim C10 witness: a connected runtime told `Connected` again. -/
theorem changeConnectionState_same_noop_witness :
    rDup.changeConnectionState .Connected "X" = .ok (rDup, []) :=
  changeConnectionState_same_noop rDup .Connected "X" rfl rfl

/-- Claim C2: processing an attach message whose origin is local removes
that message's id from the pending-attach set (leaving every other
pending entry untouched) and establishes the channel connection's base
mapping as `setBaseMapping(0, message.minimumSequenceNumber)` does. -/
theorem processAttach_local_ack (r : Runtime) (message : SeqMessage)
    (ctx : Option IChannelState) (st : IChannelState) (c : ChannelDeltaConnection)
    (hcl : r.closed = false)
    (hp : hasKey r.pendingAttach message.attachContents.id = true)
    (hch : lookupKey r.channels message.attachContents.id = some st)
    (hc : st.connection = some c)
    (hb : c.baseMappingIsSet = false) :
    ∃ r2, r.processAttach message true ctx = .ok (r2, st.object)
      ∧ hasKey r2.pendingAttach message.attachContents.id = false
      ∧ (∀ k, k ≠ message.attachContents.id →
          lookupKey r2.pendingAttach k = lookupKey r.pendingAttach k)
      ∧ lookupKey r2.channels message.attachContents.id =
          some { st with connection := some { c with
            baseSequenceNumber := some 0
            minimumSequenceNumber := message.minimumSequenceNumber } } := by
  refine ⟨{ r with
      pendingAttach := eraseKey r.pendingAttach message.attachContents.id
      channels := mapSet r.channels message.attachContents.id
        { st with connection := some { c with
            baseSequenceNumber := some 0
            minimumSequenceNumber := message.minimumSequenceNumber } } },
    ?_, ?_, ?_, ?_⟩
  · simp [Runtime.processAttach, hcl, hp, hch, hc,
      ChannelDeltaConnection.setBaseMapping, hb]
  · exact hasKey_eraseKey_self r.pendingAttach message.attachContents.id
  · intro k hk
    exact lookupKey_eraseKey_ne r.pendingAttach message.attachContents.id k hk
  · exact lookupKey_mapSet_self r.channels message.attachContents.id _

/-- Claim C2 witness: the pending attach of `"c1"` acknowledged by its
local echo carrying minimum sequence number 4. -/
theorem processAttach_local_ack_witness :
    ∃ r2, rPend.processAttach seqMsg1 true none = .ok (r2, chA)
      ∧ hasKey r2.pendingAttach "c1" = false
      ∧ (∀ k, k ≠ "c1" →
          lookupKey r2.pendingAttach k = lookupKey rPend.pendingAttach k)
      ∧ lookupKey r2.channels "c1" = some stAcked :=
  processAttach_local_ack rPend seqMsg1 none stUnmapped connUnmapped
    rfl (by decide) (by decide) rfl rfl

/-- Claim C4: a transition into the Connected state resubmits every
pending attach message verbatim, in pending order, before the
`"connected"` notification, leaves the pending-attach set unchanged and
creates no channel entry (ids and channel objects are untouched). -/
theorem reconnect_replays_pending (r : Runtime) (clientId : String)
    (hcl : r.closed = false) (hcs : r.connState ≠ ConnState.Connected) :
    ∃ r2, r.changeConnectionState .Connected clientId =
        .ok (r2, r.pendingAttach.map (fun p => REvent.submitAttach p.2) ++
          [REvent.emitConnected clientId])
      ∧ r2.pendingAttach = r.pendingAttach
      ∧ r2.channels.map (fun p => (p.1, p.2.object)) =
          r.channels.map (fun p => (p.1, p.2.object))
      ∧ r2.connState = ConnState.Connected ∧ r2.clientId = clientId := by
  refine ⟨{ r with connState := .Connected, clientId := clientId, channels := r.channels.map (fun p => (p.1, { p.2 with connection := p.2.connection.map (fun c => c.setConnState .Connected) })) }, ?_, rfl, ?_, rfl, rfl⟩
  · simp [Runtime.changeConnectionState, hcl, Ne.symm hcs]
  · induction r.channels with
    | nil => rfl
    | cons a t ih => simp [ih]

/-- Claim C4 witness: a disconnected runtime with one pending attach
message reconnecting as client `"B2"`. -/
theorem reconnect_replays_pending_witness :
    ∃ r2, rDisc.changeConnectionState .Connected "B2" =
        .ok (r2, [REvent.submitAttach attachMsg1, REvent.emitConnected "B2"])
      ∧ r2.pendingAttach = rDisc.pendingAttach
      ∧ r2.channels.map (fun p => (p.1, p.2.object)) =
          rDisc.channels.map (fun p => (p.1, p.2.object))
      ∧ r2.connState = ConnState.Connected ∧ r2.clientId = "B2" :=
  reconnect_replays_pending rDisc "B2" rfl (by decide)

/-- Claim C8: `updateMinSequenceNumber` forwards the new minimum sequence
number to a channel's delta connection exactly when the channel is
non-local with its base mapping set; every channel failing that
condition keeps its state unchanged. -/
theorem updateMinSequenceNumber_guarded (r : Runtime) (msn : Nat) :
    (∀ id st, (id, st) ∈ r.channels → Runtime.snapshotted st = false →
      (id, st) ∈ (r.updateMinSequenceNumber msn).channels)
    ∧ (∀ id st c, (id, st) ∈ r.channels → st.object.isLocal = false →
        st.connection = some c → c.baseMappingIsSet = true →
        (id, { st with connection := some (c.updateMinSequenceNumber msn) }) ∈
          (r.updateMinSequenceNumber msn).channels) := by
  constructor
  · intro id st hmem hsnap
    have hf : (fun p : String × IChannelState => if Runtime.snapshotted p.2 then (p.1, { p.2 with connection := p.2.connection.map (fun c => c.updateMinSequenceNumber msn) }) else p) (id, st) = (id, st) := by
      simp [hsnap]
    exact hf ▸ List.mem_map_of_mem _ hmem
  · intro id st c hmem hlocal hc hb
    have hsnap : Runtime.snapshotted st = true := by
      simp [Runtime.snapshotted, hlocal, hc, hb]
    have hf : (fun p : String × IChannelState => if Runtime.snapshotted p.2 then (p.1, { p.2 with connection := p.2.connection.map (fun c => c.updateMinSequenceNumber msn) }) else p) (id, st) = (id, { st with connection := some (c.updateMinSequenceNumber msn) }) := by
      simp [hsnap, hc]
    exact hf ▸ List.mem_map_of_mem _ hmem

/-- Claim C8 witness: the unmapped channel `"u1"` is untouched while the
mapped channel `"c1"` receives minimum sequence number 10. -/
theorem updateMinSequenceNumber_guarded_witness :
    ("u1", stUnmapped) ∈ (rTwo.updateMinSequenceNumber 10).channels
    ∧ ("c1", { stMapped with
        connection := some (connMapped.updateMinSequenceNumber 10) }) ∈
      (rTwo.updateMinSequenceNumber 10).channels := by
  constructor
  · exact (updateMinSequenceNumber_guarded rTwo 10).1 "u1" stUnmapped
      (by decide) (by decide)
  · exact (updateMinSequenceNumber_guarded rTwo 10).2 "c1" stMapped connMapped
      (by decide) (by decide) rfl (by decide)

/-- Claim C3 counterexample: on a closed runtime, `updateMinSequenceNumber`
does not fail — it forwards the new minimum sequence number to the mapped
channel — `transform` returns a translated sequence number, and
`snapshotInternal` produces the snapshot tree; none of them raises the
closed-container error the claim requires of every public operation. -/
theorem closed_runtime_still_acts :
    rClosed.closed = true
    ∧ (rClosed.updateMinSequenceNumber 10).channels =
        [("c1", { stMapped with connection := some { connMapped with minimumSequenceNumber := 10 } })]
    ∧ rClosed.transform "c1" 7 3 = .ok 2
    ∧ rClosed.snapshotInternal (fun _ => []) =
        [.tree "Directory" "c1" [Runtime.attributesEntry { sequenceNumber := 0, type := "TypeA" }]] := by
  refine ⟨rfl, ?_, rfl, rfl⟩
  rfl

/-- Claim C3 (amended): after `stop()` sets the closed flag, every public
operation whose body consults `verifyNotClosed` — `getChannel`,
`createChannel`, `attachChannel`, `changeConnectionState`,
`processAttach`, `hasUnackedOps`, `save`, `submitMessage`,
`registerTasks`, `stop`, `prepare`, `process` — fails immediately with
the closed-container error, but `updateMinSequenceNumber`, `transform`
and `snapshotInternal` never consult the flag: they behave exactly as on
the corresponding open runtime. -/
theorem closed_guard (r : Runtime) (h : r.closed = true) :
    (∀ id, r.getChannel id = .error .closedContainer)
    ∧ (∀ id ch, r.createChannel id ch = .error .closedContainer)
    ∧ (∀ ch snap, r.attachChannel ch snap = .error .closedContainer)
    ∧ (∀ v cid, r.changeConnectionState v cid = .error .closedContainer)
    ∧ (∀ m l ctx, r.processAttach m l ctx = .error .closedContainer)
    ∧ r.hasUnackedOps = .error .closedContainer
    ∧ r.save = .error .closedContainer
    ∧ (∀ t, r.submitMessage t = .error .closedContainer)
    ∧ (∀ ts, r.registerTasks ts = .error .closedContainer)
    ∧ (∀ f, r.stop f = .error .closedContainer)
    ∧ (∀ a, r.prepare a = .error .closedContainer)
    ∧ (∀ a, r.process a = .error .closedContainer)
    ∧ (∀ msn, (r.updateMinSequenceNumber msn).channels =
        (Runtime.updateMinSequenceNumber { r with closed := false } msn).channels)
    ∧ (∀ a b c, r.transform a b c =
        Runtime.transform { r with closed := false } a b c)
    ∧ (∀ f, r.snapshotInternal f =
        Runtime.snapshotInternal { r with closed := false } f) := by
  refine ⟨?_, ?_, ?_, ?_, ?_, ?_, ?_, ?_, ?_, ?_, ?_, ?_, ?_, ?_, ?_⟩
  · intro id
    simp [Runtime.getChannel, h]
  · intro id ch
    simp [Runtime.createChannel, h]
  · intro ch snap
    simp [Runtime.attachChannel, h]
  · intro v cid
    simp [Runtime.changeConnectionState, h]
  · intro m l ctx
    simp [Runtime.processAttach, h]
  · simp [Runtime.hasUnackedOps, h]
  · simp [Runtime.save, h]
  · intro t
    simp [Runtime.submitMessage, h]
  · intro ts
    simp [Runtime.registerTasks, h]
  · intro f
    simp [Runtime.stop, h]
  · intro a
    simp [Runtime.prepare, h]
  · intro a
    simp [Runtime.process, h]
  · intro msn
    rfl
  · intro a b c
    rfl
  · intro f
    rfl

/-- Claim C3 witness: the amended guard instantiated on the concrete
closed runtime. -/
theorem closed_guard_witness :
    rClosed.createChannel "c9" chB = .error .closedContainer
    ∧ rClosed.save = .error .closedContainer
    ∧ rClosed.submitMessage .Save = .error .closedContainer
    ∧ rClosed.transform "c1" 7 3 =
        Runtime.transform { rClosed with closed := false } "c1" 7 3 := by
  have h := closed_guard rClosed rfl
  exact ⟨h.2.1 "c9" chB, h.2.2.2.2.2.2.1,
    h.2.2.2.2.2.2.2.1 .Save, h.2.2.2.2.2.2.2.2.2.2.2.2.2.1 "c1" 7 3⟩

/-- Claim C9 counterexample: `createChannel` on an id that already holds
a channel returns successfully and silently replaces the existing state
(the previous object `chA` is gone, the map now holds `chB` under the
same id) instead of failing or preserving it. -/
theorem createChannel_silently_replaces :
    hasKey rDup.channels "c1" = true
    ∧ rDup.createChannel "c1" chB =
        .ok ({ rDup with channels := [("c1", { object := chB, storage := none, connection := none })] }, chB)
    ∧ chB ≠ chA := by
  exact ⟨rfl, rfl, by decide⟩

/-- Claim C9 (amended): the channel map holds at most one state per id —
key uniqueness is preserved by `createChannel`, `attachChannel`,
`processAttach` and `loadSnapshotChannel` — and `loadSnapshotChannel`
for an id already present fails by assertion rather than replacing it;
`createChannel` for an existing id, however, succeeds and silently
replaces the existing channel state. -/
theorem channel_id_unique_registration :
    (∀ (r : Runtime) (id : String) (ch : IChannel) (r2 : Runtime) (c2 : IChannel),
      r.createChannel id ch = .ok (r2, c2) →
      (r.channels.map Prod.fst).Nodup → (r2.channels.map Prod.fst).Nodup)
    ∧ (∀ (r : Runtime) (ch : IChannel) (snap : List SnapEntry) (r2 : Runtime)
        (ev : List REvent),
      r.attachChannel ch snap = .ok (r2, ev) →
      (r.channels.map Prod.fst).Nodup → (r2.channels.map Prod.fst).Nodup)
    ∧ (∀ (r : Runtime) (m : SeqMessage) (l : Bool) (ctx : Option IChannelState)
        (r2 : Runtime) (c2 : IChannel),
      r.processAttach m l ctx = .ok (r2, c2) →
      (r.channels.map Prod.fst).Nodup → (r2.channels.map Prod.fst).Nodup)
    ∧ (∀ (r : Runtime) (id : String) (attrs : IObjectAttributes) (msn : Nat)
        (obj : IChannel) (r2 : Runtime),
      r.loadSnapshotChannel id attrs msn obj = .ok r2 →
      (r.channels.map Prod.fst).Nodup → (r2.channels.map Prod.fst).Nodup)
    ∧ (∀ (r : Runtime) (id : String) (attrs : IObjectAttributes) (msn : Nat)
        (obj : IChannel),
      hasKey r.channels id = true →
      r.loadSnapshotChannel id attrs msn obj = .error .assertionFailed)
    ∧ (∀ (r : Runtime) (id : String) (ch : IChannel), r.closed = false →
      ∃ r2, r.createChannel id ch = .ok (r2, ch) ∧
        lookupKey r2.channels id =
          some { object := ch, storage := none, connection := none }) := by
  refine ⟨?_, ?_, ?_, ?_, ?_, ?_⟩
  · intro r id ch r2 c2 h hnd
    by_cases hcl : r.closed
    · simp [Runtime.createChannel, hcl] at h
    · simp [Runtime.createChannel, hcl] at h
      rw [← h.1]
      exact nodup_keys_mapSet _ _ _ hnd
  · intro r ch snap r2 ev h hnd
    by_cases hcl : r.closed
    · simp [Runtime.attachChannel, hcl] at h
    · cases hlk : lookupKey r.channels ch.id with
      | none => simp [Runtime.attachChannel, hcl, hlk] at h
      | some entry =>
        by_cases he : entry.object = ch
        · simp [Runtime.attachChannel, hcl, hlk, he] at h
          rw [← h.1]
          exact nodup_keys_mapSet _ _ _ hnd
        · simp [Runtime.attachChannel, hcl, hlk, he] at h
  · intro r m l ctx r2 c2 h hnd
    by_cases hcl : r.closed
    · simp [Runtime.processAttach, hcl] at h
    · cases l with
      | true =>
        by_cases hp : hasKey r.pendingAttach m.attachContents.id = true
        · cases hlk : lookupKey r.channels m.attachContents.id with
          | none => simp [Runtime.processAttach, hcl, hp, hlk] at h
          | some st =>
            cases hcn : st.connection with
            | none => simp [Runtime.processAttach, hcl, hp, hlk, hcn] at h
            | some c =>
              by_cases hb : c.baseMappingIsSet = true
              · simp [Runtime.processAttach, hcl, hp, hlk, hcn,
                  ChannelDeltaConnection.setBaseMapping, hb] at h
              · simp [Runtime.processAttach, hcl, hp, hlk, hcn,
                  ChannelDeltaConnection.setBaseMapping, hb] at h
                rw [← h.1]
                exact nodup_keys_mapSet _ _ _ hnd
        · simp [Runtime.processAttach, hcl, hp] at h
      | false =>
        cases ctx with
        | none => simp [Runtime.processAttach, hcl] at h
        | some cs =>
          cases hlk : lookupKey (mapSet r.channels cs.object.id cs)
              m.attachContents.id with
          | none => simp [Runtime.processAttach, hcl, hlk] at h
          | some st =>
            simp [Runtime.processAttach, hcl, hlk] at h
            rw [← h.1]
            exact nodup_keys_mapSet _ _ _ hnd
  · intro r id attrs msn obj r2 h hnd
    by_cases hk : hasKey r.channels id = true
    · simp [Runtime.loadSnapshotChannel, ChannelDeltaConnection.setBaseMapping,
        ChannelDeltaConnection.baseMappingIsSet, hk] at h
    · by_cases hd : hasKey r.channelsDeferred id = true
      · simp [Runtime.loadSnapshotChannel, ChannelDeltaConnection.setBaseMapping,
          ChannelDeltaConnection.baseMappingIsSet, hk, hd] at h
        rw [← h]
        exact nodup_keys_mapSet _ _ _ hnd
      · simp [Runtime.loadSnapshotChannel, ChannelDeltaConnection.setBaseMapping,
          ChannelDeltaConnection.baseMappingIsSet, hk, hd] at h
  · intro r id attrs msn obj h
    simp [Runtime.loadSnapshotChannel, ChannelDeltaConnection.setBaseMapping,
      ChannelDeltaConnection.baseMappingIsSet, h]
  · intro r id ch hcl
    refine ⟨{ r with channels := mapSet r.channels id { object := ch, storage := none, connection := none }, channelsDeferred := mapSet r.channelsDeferred id true }, ?_, ?_⟩
    · simp [Runtime.createChannel, hcl]
    · exact lookupKey_mapSet_self _ _ _

/-- Claim C9 witness: the amended behaviour instantiated on a runtime
already holding channel `"c1"`: the snapshot load fails by assertion,
the create silently replaces. -/
theorem channel_id_unique_registration_witness :
    rDup.loadSnapshotChannel "c1" { sequenceNumber := 3, type := "TypeA" } 2 chB =
      .error .assertionFailed
    ∧ (∃ r2, rDup.createChannel "c1" chB = .ok (r2, chB) ∧
        lookupKey r2.channels "c1" =
          some { object := chB, storage := none, connection := none }) := by
  have h := channel_id_unique_registration
  exact ⟨h.2.2.2.2.1 rDup "c1" { sequenceNumber := 3, type := "TypeA" } 2 chB (by decide),
    h.2.2.2.2.2 rDup "c1" chB rfl⟩

/-- Claim C1: a channel appears in the snapshot tree if and only if it is
non-local with its base mapping established; each included channel's
entry is its own snapshot nested under its id with an appended
`.attributes` blob carrying its delta connection's minimum sequence
number and its type; and (given the maintained invariant that a
pending-attach channel has no base mapping yet) every channel still
pending attach is absent from the tree. -/
theorem snapshot_tree_inclusion (r : Runtime) (snapshotOf : String → List SnapEntry)
    (hpend : ∀ id st, hasKey r.pendingAttach id = true → (id, st) ∈ r.channels →
      Runtime.snapshotted st = false) :
    (∀ id, (∃ e ∈ r.snapshotInternal snapshotOf, e.pathOf = id) ↔
        ∃ st, (id, st) ∈ r.channels ∧ Runtime.snapshotted st = true)
    ∧ (∀ id st c, (id, st) ∈ r.channels → st.connection = some c →
        st.object.isLocal = false → c.baseMappingIsSet = true →
        SnapEntry.tree "Directory" id (snapshotOf id ++
          [Runtime.attributesEntry { sequenceNumber := c.minimumSequenceNumber, type := st.object.type }]) ∈
          r.snapshotInternal snapshotOf)
    ∧ (∀ id, hasKey r.pendingAttach id = true →
        ¬ ∃ e ∈ r.snapshotInternal snapshotOf, e.pathOf = id) := by
  have hmain : ∀ (p : String × IChannelState) (e : SnapEntry),
      (match p.2.connection with
       | some c =>
         if !p.2.object.isLocal && c.baseMappingIsSet then
           some (SnapEntry.tree "Directory" p.1 (snapshotOf p.1 ++
             [Runtime.attributesEntry { sequenceNumber := c.minimumSequenceNumber, type := p.2.object.type }]))
         else none
       | none => none) = some e →
      e.pathOf = p.1 ∧ Runtime.snapshotted p.2 = true := by
    intro p e h
    cases hc : p.2.connection with
    | none => simp only [hc] at h; cases h
    | some c =>
      simp only [hc] at h
      by_cases hcond : (!p.2.object.isLocal && c.baseMappingIsSet) = true
      · rw [if_pos hcond] at h
        cases h
        refine ⟨rfl, ?_⟩
        simpa [Runtime.snapshotted, hc] using hcond
      · rw [if_neg hcond] at h
        cases h
  have hmk : ∀ (p : String × IChannelState) (c : ChannelDeltaConnection),
      p.2.connection = some c → Runtime.snapshotted p.2 = true →
      (match p.2.connection with
       | some c =>
         if !p.2.object.isLocal && c.baseMappingIsSet then
           some (SnapEntry.tree "Directory" p.1 (snapshotOf p.1 ++
             [Runtime.attributesEntry { sequenceNumber := c.minimumSequenceNumber, type := p.2.object.type }]))
         else none
       | none => none) =
        some (SnapEntry.tree "Directory" p.1 (snapshotOf p.1 ++
          [Runtime.attributesEntry { sequenceNumber := c.minimumSequenceNumber, type := p.2.object.type }])) := by
    intro p c hc hsnap
    simp only [hc]
    rw [if_pos (by simpa [Runtime.snapshotted, hc] using hsnap)]
  have hfwd : ∀ id, (∃ e ∈ r.snapshotInternal snapshotOf, e.pathOf = id) →
      ∃ st, (id, st) ∈ r.channels ∧ Runtime.snapshotted st = true := by
    rintro id ⟨e, he, hpath⟩
    rw [Runtime.snapshotInternal, List.mem_filterMap] at he
    obtain ⟨p, hp, hfp⟩ := he
    obtain ⟨hpe, hsnap⟩ := hmain p e hfp
    refine ⟨p.2, ?_, hsnap⟩
    have : p.1 = id := by rw [← hpe, hpath]
    rw [← this]
    exact hp
  refine ⟨?_, ?_, ?_⟩
  · intro id
    constructor
    · exact hfwd id
    · rintro ⟨st, hmem, hsnap⟩
      obtain ⟨c, hc⟩ : ∃ c, st.connection = some c := by
        cases hcn : st.connection with
        | none => simp [Runtime.snapshotted, hcn] at hsnap
        | some c => exact ⟨c, rfl⟩
      refine ⟨SnapEntry.tree "Directory" id (snapshotOf id ++
        [Runtime.attributesEntry { sequenceNumber := c.minimumSequenceNumber, type := st.object.type }]), ?_, rfl⟩
      rw [Runtime.snapshotInternal, List.mem_filterMap]
      exact ⟨(id, st), hmem, hmk (id, st) c hc hsnap⟩
  · intro id st c hmem hc hlocal hb
    rw [Runtime.snapshotInternal, List.mem_filterMap]
    refine ⟨(id, st), hmem, ?_⟩
    exact hmk (id, st) c hc (by simp [Runtime.snapshotted, hc, hlocal, hb])
  · intro id hpd hex
    obtain ⟨st, hmem, hsnap⟩ := hfwd id hex
    rw [hpend id st hpd hmem] at hsnap
    cases hsnap

/-- Claim C1 witness: the mapped channel `"c1"` (minimum sequence
number 7, type `"TypeA"`) appears in the snapshot of `rSnap` nested
under its id with the appended `.attributes` blob. -/
theorem snapshot_tree_inclusion_witness :
    SnapEntry.tree "Directory" "c1"
      [Runtime.attributesEntry { sequenceNumber := 7, type := "TypeA" }] ∈
      rSnap.snapshotInternal (fun _ => []) :=
  (snapshot_tree_inclusion rSnap (fun _ => [])
      (by intro id st h hm; simp [rSnap, hasKey] at h)).2.1
    "c1" stMsn7 connMsn7 (by decide) rfl rfl rfl

end Fluid
